import Mathlib

/-!
# Verification of the Sleep-Logger timeline editor core

A shallow embedding of the temporal coordinate model (`src/lib/time.ts`),
the segment store / day-index maintenance (`src/lib/db.ts`), the overlap
validator and commit path (`src/components/SleepRibbons/useSleepEditor.ts`)
and the gesture-to-coordinate translator
(`src/components/SleepRibbons/DayColumn.tsx`), together with theorems
settling the specification claims about them.

Modelling conventions, used throughout:
* Instants are integers counting minutes since the local epoch midnight;
  the device timezone is modelled as a fixed offset (no DST), so a local
  calendar day is the half-open window `[d*1440, (d+1)*1440)` for an
  integer day number `d`.  A `YYYY-MM-DD` day key is represented by its
  day number; `addDaysLocal`'s calendar day arithmetic is addition on day
  numbers.
* All minute values in the source are integers (gesture deltas are
  produced by `Math.round`), so update functions are parameterised by the
  already-rounded integer inputs.
* JavaScript truncating division/remainder (`Math.trunc(m / 60)`, `m % 60`)
  are `Int.tdiv` / `Int.tmod`; `Math.round(n / s)` for integers `n`,
  `s > 0` (round half toward positive infinity) is
  `Int.ediv (2*n + s) (2*s)`.
-/

namespace SleepLogger

/-- `MINUTES_PER_DAY` from `src/components/SleepRibbons/constants.ts`. -/
def MINUTES_PER_DAY : Int := 1440

/-- `MIN_DURATION` from `constants.ts` (minimum segment duration, minutes). -/
def MIN_DURATION : Int := 60

/-- `MIN_CREATE_MINUTES` from `constants.ts`. -/
def MIN_CREATE_MINUTES : Int := 60

/-! ## Worklet helpers (`src/components/SleepRibbons/workletHelpers.ts`) -/

/-- `wClamp(n, lo, hi) = Math.max(lo, Math.min(hi, n))`. -/
def wClamp (n lo hi : Int) : Int := max lo (min hi n)

/-- JavaScript `Math.round(n / s)` for integers `n` and `s > 0`:
rounds half toward positive infinity, i.e. `⌊n/s + 1/2⌋ = ⌊(2n+s)/(2s)⌋`. -/
def jsRoundDiv (n s : Int) : Int := Int.ediv (2 * n + s) (2 * s)

/-- `wSnapTo(n, step) = Math.round(n / s) * s` with `s = step > 0 ? step : 1`. -/
def wSnapTo (n step : Int) : Int :=
  let s := if 0 < step then step else 1
  jsRoundDiv n s * s

/-! ## Temporal coordinate model (`src/lib/time.ts`) -/

/-- A JS `new Date(year, month-1, day, hours, minutes)` in the fixed-offset
model: the day-key's day number plus the (freely overflowing) hour and
minute fields, as minutes since the epoch.  JS normalises out-of-range
fields by exactly this arithmetic. -/
def mkLocalInstant (day hours minutes : Int) : Int :=
  day * MINUTES_PER_DAY + hours * 60 + minutes

/-- `localDateFromDayAndMinutes(dayKey, minutesFromMidnight)` from
`src/lib/time.ts` (lines 277-282): `hours = Math.trunc(m / 60)`,
`minutes = Math.trunc(m % 60)`, then `new Date(y, month-1, d, hours, minutes)`.
JS `/` on ints truncates via `Math.trunc` and `%` is the truncating
remainder, hence `Int.tdiv` / `Int.tmod`. -/
def localDateFromDayAndMinutes (dayKey minutesFromMidnight : Int) : Int :=
  mkLocalInstant dayKey (Int.tdiv minutesFromMidnight 60) (Int.tmod minutesFromMidnight 60)

/-- `addDaysLocal(dateKey, days)` from `src/lib/time.ts` in the day-number
model; `nextDay D = addDaysLocal D 1`. -/
def addDaysLocal (dayKey days : Int) : Int := dayKey + days

/-- The local date key of an instant (`localDateKeyFromUtcIso` /
`fmtLocalDate` in `src/lib/time.ts`): the day whose window contains it. -/
def localDateKeyOfInstant (t : Int) : Int := Int.ediv t MINUTES_PER_DAY

/-- `durationMin(startUtc, endUtc)` from `src/lib/time.ts` (lines 164-168):
`Math.max(0, b.diff(a, "minute"))`.  With minute-resolution instants the
dayjs minute diff is exact subtraction. -/
def durationMin (startUtc endUtc : Int) : Int := max 0 (endUtc - startUtc)

/-- `localDateFromDayAndMinutes` collapses to plain minute arithmetic:
the truncating quotient/remainder recombine exactly. -/
theorem localDateFromDayAndMinutes_eq (d m : Int) :
    localDateFromDayAndMinutes d m = d * MINUTES_PER_DAY + m := by
  unfold localDateFromDayAndMinutes mkLocalInstant
  have h := Int.tdiv_add_tmod m 60
  omega

/-! ## Sleep segments and the segment store (`src/lib/db.ts`)

`SleepSegment` is modelled with the fields the verified operations read:
`id`, `start_utc`, `end_utc` (`null` = open).  The `kind`, `source`,
`notes`, timezone and audit columns do not influence the claims below and
are omitted.  The day index keeps the `local_date -> total_sleep_min`
association; the `has_primary`, `has_naps` and `last_calc_at` columns are
likewise omitted. -/

structure Segment where
  id : String
  start_utc : Int
  end_utc : Option Int
deriving Repr, DecidableEq

structure Store where
  segments : List Segment
  dayIndex : List (Int × Int)
deriving Repr, DecidableEq

/-- `getSegmentsForLocalDate(localDate)` from `src/lib/db.ts`: all rows with
`start_utc < winEnd AND (end_utc IS NULL OR end_utc > winStart)` where the
window is the local day `[localDate*1440, (localDate+1)*1440)`.  (The SQL
`ORDER BY start_utc` only affects presentation order.) -/
def getSegmentsForLocalDate (segs : List Segment) (localDate : Int) : List Segment :=
  let winStartUtc := localDate * MINUTES_PER_DAY
  let winEndUtc := (localDate + 1) * MINUTES_PER_DAY
  segs.filter fun s =>
    decide (s.start_utc < winEndUtc) &&
      (match s.end_utc with
       | none => true
       | some e => decide (winStartUtc < e))

/-- The summation loop of `recomputeDayIndexForLocalDate` (`src/lib/db.ts`
lines 312-338): `if (s.end_utc) total += durationMin(s.start_utc, s.end_utc)`
over the day's overlapping rows — note the *full* duration is added. -/
def dayTotalSleepMin (segs : List Segment) (localDate : Int) : Int :=
  (getSegmentsForLocalDate segs localDate).foldl
    (fun total s =>
      match s.end_utc with
      | some e => total + durationMin s.start_utc e
      | none => total)
    0

/-- `INSERT ... ON CONFLICT(local_date) DO UPDATE` on the day-index table. -/
def upsertDayIndex : List (Int × Int) → Int → Int → List (Int × Int)
  | [], d, t => [(d, t)]
  | (d0, t0) :: rest, d, t =>
      if d0 = d then (d, t) :: rest else (d0, t0) :: upsertDayIndex rest d t

/-- `recomputeDayIndexForLocalDate(localDate)` from `src/lib/db.ts`. -/
def recomputeDayIndexForLocalDate (st : Store) (localDate : Int) : Store :=
  { st with dayIndex := upsertDayIndex st.dayIndex localDate (dayTotalSleepMin st.segments localDate) }

/-- `recomputeDayIndexForUtcInstant(utcIso)` from `src/lib/db.ts`. -/
def recomputeDayIndexForUtcInstant (st : Store) (t : Int) : Store :=
  recomputeDayIndexForLocalDate st (localDateKeyOfInstant t)

/-- Read a day's `total_sleep_min` from the day-index table. -/
def dayIndexTotal (st : Store) (localDate : Int) : Option Int :=
  (st.dayIndex.find? fun p => p.1 == localDate).map (·.2)

/-- The SQL statements `deleteSegment` can issue, for observing which
side effects a call performs. -/
inductive DbAction where
  | deleteStmt (id : String)
  | recompute (localDate : Int)
deriving Repr, DecidableEq

/-- `deleteSegment(id)` from `src/lib/db.ts` (lines 258-272): fetch the row
first; if absent, return immediately (no DELETE, no recompute); otherwise
delete it and recompute the start day and, if closed, the end day.
The returned list records the statements issued. -/
def deleteSegment (st : Store) (id : String) : Store × List DbAction :=
  match st.segments.find? (fun s => s.id == id) with
  | none => (st, [])
  | some seg =>
      let st1 : Store := { st with segments := st.segments.filter fun s => !(s.id == id) }
      let st2 := recomputeDayIndexForUtcInstant st1 seg.start_utc
      match seg.end_utc with
      | some e =>
          (recomputeDayIndexForUtcInstant st2 e,
           [DbAction.deleteStmt id,
            DbAction.recompute (localDateKeyOfInstant seg.start_utc),
            DbAction.recompute (localDateKeyOfInstant e)])
      | none =>
          (st2,
           [DbAction.deleteStmt id,
            DbAction.recompute (localDateKeyOfInstant seg.start_utc)])

/-! ## Overlap validator (`src/components/SleepRibbons/useSleepEditor.ts`) -/

/-- The `excludeId && seg.id === excludeId` test in `checkOverlap`
(`undefined` is modelled as `none`). -/
def excludeMatches : Option String → String → Bool
  | none, _ => false
  | some ex, sid => sid == ex

/-- `checkOverlap(dayKey, start, end, excludeId?)` from `useSleepEditor.ts`
(lines 53-90).  The `dayKey` parameter is accepted but unused by the body
(it checks all segments).  `if (end <= start) return true`; then any other
closed segment with `max(a1, start) < min(a2, end)` conflicts.  The
invalid-date guard is vacuous in the integer instant model. -/
def checkOverlap (dayKey : Int) (segments : List Segment)
    (start end_ : Int) (excludeId : Option String) : Bool :=
  let _ := dayKey
  if end_ ≤ start then true
  else
    segments.any fun seg =>
      if excludeMatches excludeId seg.id then false
      else
        match seg.end_utc with
        | none => false
        | some a2 => decide (max seg.start_utc start < min a2 end_)

/-! ## Gesture-to-coordinate translator
(`src/components/SleepRibbons/DayColumn.tsx`)

The live coordinates are the four shared values `startMinSV`, `endMinSV`,
`startDayOffsetSV`, `endDayOffsetSV` plus the `isEditingSV === 1` flag.
Each gesture `onChange` recomputes the moving handle from its `onStart`
snapshot plus the current translation; since
`deltaMin = Math.round(-translationY/height * 1440)` and
`Math.round(translationX/width)` are arbitrary integers, an update is
parameterised by the candidate values
`snapshot + delta` directly. -/

structure GestureState where
  startMin : Int
  endMin : Int
  startDayOffset : Int
  endDayOffset : Int
  isEditing : Bool
deriving Repr, DecidableEq

/-- The total span in minutes of the live coordinates,
`(endDayOffset*1440 + endMinute) - (startDayOffset*1440 + startMinute)`. -/
def totalSpanMin (st : GestureState) : Int :=
  (st.endDayOffset * MINUTES_PER_DAY + st.endMin) -
    (st.startDayOffset * MINUTES_PER_DAY + st.startMin)

/-- The paired while loops
`while (m < 0) { off--; m += 1440 }` / `while (m >= 1440) { off++; m -= 1440 }`
used throughout `DayColumn.tsx` to normalise a minute value into `[0,1440)`
while rolling the surplus into the day offset: their fixpoint is the
Euclidean remainder and quotient. -/
def normalizeLoop (m off : Int) : Int × Int :=
  (m % MINUTES_PER_DAY, off + m / MINUTES_PER_DAY)

/-- The one-sided loop `while (m >= 1440) { off++; m -= 1440 }` used after
the minimum-duration adjustment in `gTop.onChange`: values below zero are
left untouched. -/
def normalizeUpLoop (m off : Int) : Int × Int :=
  if 0 ≤ m then (m % MINUTES_PER_DAY, off + m / MINUTES_PER_DAY)
  else (m, off)

/-- The end-handle day clamp in `gTop.onChange` (`DayColumn.tsx` lines
416-421): `if (dayOffset < startDayOffsetSV.value) { dayOffset =
startDayOffsetSV.value; endMin = 0; }`.  Returns `(dayOffset, endMin)`. -/
def clampEndToStart (startDayOffset dayOffset endMin : Int) : Int × Int :=
  if dayOffset < startDayOffset then (startDayOffset, 0) else (dayOffset, endMin)

/-- The start-handle day clamp in `gBottom.onChange` (`DayColumn.tsx` lines
510-515): `if (dayOffset > endDayOffsetSV.value) { dayOffset =
endDayOffsetSV.value; startMin = MINUTES_PER_DAY - 1; }`.
Returns `(dayOffset, startMin)`. -/
def clampStartToEnd (endDayOffset dayOffset startMin : Int) : Int × Int :=
  if endDayOffset < dayOffset then (endDayOffset, MINUTES_PER_DAY - 1)
  else (dayOffset, startMin)

/-- `gTop.onChange` from `DayColumn.tsx` (lines 393-441): move the end
handle.  `endMinCand`/`dayOffsetCand` are the snapshot plus the rounded
vertical/horizontal translation.  Steps: bail unless editing; normalise
the minute across day boundaries; clamp to the start handle's day;
enforce the minimum duration by recomputing the end minute from the start
handle and re-normalising upward. -/
def gTopChange (st : GestureState) (endMinCand dayOffsetCand : Int) : GestureState :=
  if st.isEditing = false then st
  else
    let p := normalizeLoop endMinCand dayOffsetCand
    let q := clampEndToStart st.startDayOffset p.2 p.1
    let dayOffset := q.1
    let endMin := q.2
    let totalStartMin := st.startMin + st.startDayOffset * MINUTES_PER_DAY
    let totalEndMin := endMin + dayOffset * MINUTES_PER_DAY
    let r :=
      if totalEndMin - totalStartMin < MIN_DURATION then
        normalizeUpLoop (totalStartMin - dayOffset * MINUTES_PER_DAY + MIN_DURATION) dayOffset
      else (endMin, dayOffset)
    { st with endMin := r.1, endDayOffset := r.2 }

/-- `gTop.onEnd` from `DayColumn.tsx` (lines 442-468): if the handle sits
on this column's day and editing is live (`isHandleHere`), snap the end
minute to the snap granularity and normalise across day boundaries
(both while loops). -/
def gTopEnd (st : GestureState) (isHandleHere : Bool) (safeSnap : Int) : GestureState :=
  if !(isHandleHere && st.isEditing) then st
  else
    let p := normalizeLoop (wSnapTo st.endMin safeSnap) st.endDayOffset
    { st with endMin := p.1, endDayOffset := p.2 }

/-- `gBottom.onChange` from `DayColumn.tsx` (lines 487-530): move the start
handle.  Steps: bail unless editing; normalise across day boundaries;
clamp to the end handle's day; `wClamp` the minute into `[0,1440]`;
enforce the minimum duration by recomputing the start minute from the end
handle, again `wClamp`ed into `[0,1440]`. -/
def gBottomChange (st : GestureState) (startMinCand dayOffsetCand : Int) : GestureState :=
  if st.isEditing = false then st
  else
    let p := normalizeLoop startMinCand dayOffsetCand
    let q := clampStartToEnd st.endDayOffset p.2 p.1
    let dayOffset := q.1
    let startMin0 := wClamp q.2 0 MINUTES_PER_DAY
    let totalStartMin := startMin0 + dayOffset * MINUTES_PER_DAY
    let totalEndMin := st.endMin + st.endDayOffset * MINUTES_PER_DAY
    let startMin :=
      if totalEndMin - totalStartMin < MIN_DURATION then
        wClamp (totalEndMin - dayOffset * MINUTES_PER_DAY - MIN_DURATION) 0 MINUTES_PER_DAY
      else startMin0
    { st with startMin := startMin, startDayOffset := dayOffset }

/-- `gBottom.onEnd` from `DayColumn.tsx` (lines 531-545): if the handle is
on this column's day and editing is live, snap the start minute and clamp
it into `[0,1440]`; the day offset is not changed. -/
def gBottomEnd (st : GestureState) (isHandleHere : Bool) (safeSnap : Int) : GestureState :=
  if !(isHandleHere && st.isEditing) then st
  else { st with startMin := wClamp (wSnapTo st.startMin safeSnap) 0 MINUTES_PER_DAY }

/-! ## Long-press creation (`DayColumn.tsx`, `longPressEmpty`) -/

/-- Which editor entry point a long-press on empty space invokes. -/
inductive CreateCall where
  | withOffset (startMin endMin startDayOffset endDayOffset : Int)
  | plain (startMin endMin : Int)
deriving Repr, DecidableEq

/-- `longPressEmpty.onStart` from `DayColumn.tsx` (lines 194-247).
`editActive` is the `if (edit) return` guard; `rawStartMin` is the already
rounded `Math.round((1 - y/height) * 1440)` for the clamped press
coordinate (hence in `[0,1440]`).  On the overnight path
(`startMin + desiredDuration >= 1440`) the session is created through
`startNewEditWithOffset(..., 0, 1)` with the wrapped, snapped end minute;
otherwise through `startNewEdit` on the same day. -/
def longPressEmpty (editActive : Bool) (rawStartMin defaultDurationMin safeSnap : Int) :
    Option CreateCall :=
  if editActive then none
  else
    let startMin0 := min rawStartMin (MINUTES_PER_DAY - MIN_DURATION)
    let startMin := max 0 (wSnapTo startMin0 safeSnap)
    let desiredDuration := max MIN_CREATE_MINUTES (min defaultDurationMin MINUTES_PER_DAY)
    if MINUTES_PER_DAY ≤ startMin + desiredDuration then
      let endMin0 := startMin + desiredDuration - MINUTES_PER_DAY
      let endMin := max 0 (wSnapTo endMin0 safeSnap)
      some (CreateCall.withOffset startMin endMin 0 1)
    else
      let endMin1 := min (MINUTES_PER_DAY - 1) (startMin + desiredDuration)
      let startMin1 :=
        if endMin1 - startMin < MIN_CREATE_MINUTES then max 0 (endMin1 - MIN_CREATE_MINUTES)
        else startMin
      let endMin2 := max (startMin1 + MIN_CREATE_MINUTES) (wSnapTo endMin1 safeSnap)
      let endMin3 := min (MINUTES_PER_DAY - 1) endMin2
      let endMin4 :=
        if endMin3 - startMin1 < MIN_CREATE_MINUTES then
          min (MINUTES_PER_DAY - 1) (startMin1 + MIN_CREATE_MINUTES)
        else endMin3
      some (CreateCall.plain startMin1 endMin4)

/-! ## Edit session and commit (`src/components/SleepRibbons/useSleepEditor.ts`) -/

/-- The `EditingSession` React state of `useSleepEditor`.
`lastCommittedStart`/`lastCommittedEnd` are minute-of-day values; the code
stores no corresponding committed day offsets.  The optional
`isCommitting?: boolean` is modelled with `false` for `undefined`. -/
structure EditingSession where
  id : String
  hasSaved : Bool
  dayKey : Int
  isDirty : Bool
  lastCommittedStart : Int
  lastCommittedEnd : Int
  isCommitting : Bool
deriving Repr, DecidableEq

/-- The four live coordinate shared values read and written by `commitEdit`. -/
structure Coords where
  startMin : Int
  endMin : Int
  startDayOffset : Int
  endDayOffset : Int
deriving Repr, DecidableEq

/-- `getDateKeyFromOffset(baseDayKey, dayOffset)` from `useSleepEditor.ts`:
calendar day addition, i.e. day-number addition in this model. -/
def getDateKeyFromOffset (baseDayKey dayOffset : Int) : Int := baseDayKey + dayOffset

/-- The outcome of one `commitEdit()` call.  `persistAttempted` records
whether the `upsertSegment` store call was issued (`upsertArgs` holds the
row it was issued with); `session` and `coords` are the post-call React
session state and shared coordinate values. -/
structure CommitOutcome where
  ok : Bool
  persistAttempted : Bool
  upsertArgs : Option (String × Int × Int)
  session : EditingSession
  coords : Coords
deriving Repr, DecidableEq

/-- `commitEdit()` from `useSleepEditor.ts` (lines 93-185), for an existing
session.  The store `upsertSegment` call is external and asynchronous; its
outcome is the `persistFails` parameter (`true` = the awaited call throws).
Control flow translated from the source:
1. set `isCommitting` (then the body runs inside `try`);
2. read the shared values, compute absolute instants via
   `getDateKeyFromOffset` + `localDateFromDayAndMinutes`;
3. `if (end <= start)` reject: clear `isCommitting`, toast, return false —
   no store call;
4. `if (checkOverlap(dayKey, start, end, hasSaved ? id : undefined))`
   reject the same way — no store call;
5. issue `upsertSegment`; on success set `hasSaved`, clear `isDirty`,
   record `lastCommittedStart/End`, keep `isCommitting`, return true;
6. on a thrown store error (`catch`): toast, write `lastCommittedStart` /
   `lastCommittedEnd` back into `startMinSV`/`endMinSV` (the day-offset
   shared values are not touched), clear `isDirty` and `isCommitting`,
   return false. -/
def commitEdit (sess : EditingSession) (c : Coords) (segments : List Segment)
    (persistFails : Bool) : CommitOutcome :=
  let sess1 : EditingSession := { sess with isCommitting := true }
  let startDayKey := getDateKeyFromOffset sess.dayKey c.startDayOffset
  let endDayKey := getDateKeyFromOffset sess.dayKey c.endDayOffset
  let start := localDateFromDayAndMinutes startDayKey c.startMin
  let end_ := localDateFromDayAndMinutes endDayKey c.endMin
  if end_ ≤ start then
    { ok := false, persistAttempted := false, upsertArgs := none
      session := { sess1 with isCommitting := false }, coords := c }
  else if checkOverlap sess.dayKey segments start end_
      (if sess.hasSaved then some sess.id else none) then
    { ok := false, persistAttempted := false, upsertArgs := none
      session := { sess1 with isCommitting := false }, coords := c }
  else if persistFails then
    { ok := false, persistAttempted := true, upsertArgs := some (sess.id, start, end_)
      session := { sess1 with isDirty := false, isCommitting := false }
      coords := { c with startMin := sess.lastCommittedStart,
                         endMin := sess.lastCommittedEnd } }
  else
    { ok := true, persistAttempted := true, upsertArgs := some (sess.id, start, end_)
      session := { sess1 with hasSaved := true, isDirty := false,
                              lastCommittedStart := c.startMin,
                              lastCommittedEnd := c.endMin,
                              isCommitting := true }
      coords := c }

/-! ## Helper lemmas -/

/-- Minute/day-offset normalisation preserves the encoded total minutes. -/
theorem normalizeLoop_total (m off : Int) :
    (normalizeLoop m off).1 + (normalizeLoop m off).2 * MINUTES_PER_DAY
      = m + off * MINUTES_PER_DAY := by
  unfold normalizeLoop MINUTES_PER_DAY
  omega

/-- Upward-only normalisation preserves the encoded total minutes. -/
theorem normalizeUpLoop_total (m off : Int) :
    (normalizeUpLoop m off).1 + (normalizeUpLoop m off).2 * MINUTES_PER_DAY
      = m + off * MINUTES_PER_DAY := by
  unfold normalizeUpLoop MINUTES_PER_DAY
  split <;> omega

/-- Snapping a nonnegative minute value yields a nonnegative value. -/
theorem wSnapTo_nonneg (n step : Int) (h : 0 ≤ n) : 0 ≤ wSnapTo n step := by
  unfold wSnapTo jsRoundDiv
  have hs : (0 : Int) < if 0 < step then step else 1 := by split <;> omega
  set s : Int := if 0 < step then step else 1 with hsdef
  have h1 : 0 ≤ Int.ediv (2 * n + s) (2 * s) := Int.ediv_nonneg (by omega) (by omega)
  exact mul_nonneg h1 (le_of_lt hs)

/-- One segment's contribution inside the `recomputeDayIndexForLocalDate`
summation loop. -/
theorem dayTotalSleepMin_singleton (seg : Segment) (e localDate : Int)
    (hend : seg.end_utc = some e)
    (h1 : seg.start_utc < (localDate + 1) * MINUTES_PER_DAY)
    (h2 : localDate * MINUTES_PER_DAY < e) :
    dayTotalSleepMin [seg] localDate = durationMin seg.start_utc e := by
  obtain ⟨sid, sstart, send⟩ := seg
  simp only at hend h1 h2
  subst hend
  unfold dayTotalSleepMin getSegmentsForLocalDate
  simp [List.filter_cons, h1, h2]

/-- The day-index upsert leaves the written row as the first match for its
key. -/
theorem find_upsertDayIndex (idx : List (Int × Int)) (d t : Int) :
    (upsertDayIndex idx d t).find? (fun p => p.1 == d) = some (d, t) := by
  induction idx with
  | nil => simp [upsertDayIndex, List.find?]
  | cons hd rest ih =>
      obtain ⟨d0, t0⟩ := hd
      unfold upsertDayIndex
      by_cases h : d0 = d
      · simp [h, List.find?]
      · simp only [if_neg h, List.find?_cons]
        have : ((d0, t0).1 == d) = false := by simpa using h
        simp [this, ih]

/-- Reading a day's total right after recomputing that day returns the
freshly computed sum. -/
theorem dayIndexTotal_recompute (st : Store) (localDate : Int) :
    dayIndexTotal (recomputeDayIndexForLocalDate st localDate) localDate
      = some (dayTotalSleepMin st.segments localDate) := by
  unfold dayIndexTotal recomputeDayIndexForLocalDate
  simp [find_upsertDayIndex]

/-- The per-segment test inside `checkOverlap`, in propositional form. -/
theorem checkOverlap_elem_iff (ex : Option String) (s e : Int) (seg : Segment) :
    ((if excludeMatches ex seg.id then false
      else
        match seg.end_utc with
        | none => false
        | some a2 => decide (max seg.start_utc s < min a2 e)) = true)
      ↔ ex ≠ some seg.id ∧
          ∃ e2, seg.end_utc = some e2 ∧ max seg.start_utc s < min e2 e := by
  cases ex with
  | none =>
      have h0 : excludeMatches none seg.id = false := rfl
      rw [h0]
      simp only [Bool.false_eq_true, if_false]
      cases seg.end_utc with
      | none => simp
      | some a2 => simp
  | some x =>
      have h0 : excludeMatches (some x) seg.id = (seg.id == x) := rfl
      rw [h0]
      by_cases hx : seg.id = x
      · subst hx
        simp
      · have hbeq : (seg.id == x) = false := by simpa using hx
        rw [hbeq]
        simp only [Bool.false_eq_true, if_false]
        have hne : some x ≠ some seg.id := by
          simpa using fun hcontra => hx hcontra.symm
        cases seg.end_utc with
        | none => simp [hne]
        | some a2 => simp [hne]

/-! ## Claim C8 — rollover of `localDateFromDayAndMinutes` -/

/-- Claim C8: `localDateFromDayAndMinutes` accepts minute values outside
`[0,1440)` and rolls them into adjacent days: `(D, 1500)` equals
`(nextDay D, 60)`, and `(D, m + 1440)` equals `(nextDay D, m)` for every
minute `m` in `[0,1440)` (indeed for every integer `m`). -/
theorem claim_C8_rollover :
    (∀ d : Int,
      localDateFromDayAndMinutes d 1500
        = localDateFromDayAndMinutes (addDaysLocal d 1) 60) ∧
    (∀ d m : Int, 0 ≤ m → m < 1440 →
      localDateFromDayAndMinutes d (m + 1440)
        = localDateFromDayAndMinutes (addDaysLocal d 1) m) := by
  constructor
  · intro d
    simp only [localDateFromDayAndMinutes_eq, addDaysLocal, MINUTES_PER_DAY]
    omega
  · intro d m _ _
    simp only [localDateFromDayAndMinutes_eq, addDaysLocal, MINUTES_PER_DAY]
    omega

/-- Witness for C8 at day 0, `m = 60`. -/
theorem claim_C8_rollover_witness :
    localDateFromDayAndMinutes 0 1500 = localDateFromDayAndMinutes (addDaysLocal 0 1) 60 ∧
    localDateFromDayAndMinutes 0 (60 + 1440) = localDateFromDayAndMinutes (addDaysLocal 0 1) 60 :=
  ⟨claim_C8_rollover.1 0, claim_C8_rollover.2 0 60 (by decide) (by decide)⟩

/-! ## Claim C3 — the overlap validator's conflict condition -/

/-- Claim C3: `checkOverlap` reports a conflict iff `end <= start`
(automatic), or some closed segment not named by `excludeId` satisfies
`max(start, startB) < min(end, endB)` strictly; open segments (`null`
end) never participate, and touching endpoints never conflict. -/
theorem claim_C3_checkOverlap_iff (dayKey : Int) (segs : List Segment)
    (s e : Int) (ex : Option String) :
    checkOverlap dayKey segs s e ex = true ↔
      e ≤ s ∨ ∃ seg ∈ segs, ex ≠ some seg.id ∧
        ∃ e2, seg.end_utc = some e2 ∧ max seg.start_utc s < min e2 e := by
  unfold checkOverlap
  by_cases h : e ≤ s
  · simp [h]
  · simp only [if_neg h, List.any_eq_true]
    constructor
    · rintro ⟨seg, hseg, hb⟩
      exact Or.inr ⟨seg, hseg, (checkOverlap_elem_iff ex s e seg).mp hb⟩
    · rintro (hc | ⟨seg, hseg, hrest⟩)
      · exact absurd hc h
      · exact ⟨seg, hseg, (checkOverlap_elem_iff ex s e seg).mpr hrest⟩

/-! ## Claim C10 — deleting a nonexistent segment is a no-op -/

/-- Claim C10: `deleteSegment` with an id matching no stored segment
returns with the store unchanged, issuing no DELETE statement and no
day-index recomputation.  (The embedded function is total, matching the
source's early `return`; nothing is raised.) -/
theorem claim_C10_delete_missing_noop (st : Store) (id : String)
    (h : ∀ s ∈ st.segments, s.id ≠ id) :
    deleteSegment st id = (st, []) := by
  unfold deleteSegment
  have hfind : st.segments.find? (fun s => s.id == id) = none := by
    apply List.find?_eq_none.mpr
    intro s hs
    simpa using h s hs
  rw [hfind]

/-- Witness for C10: a store holding one segment, queried with a foreign id. -/
theorem claim_C10_delete_missing_noop_witness :
    deleteSegment (Store.mk [Segment.mk "a" 0 (some 60)] []) "zzz"
      = (Store.mk [Segment.mk "a" 0 (some 60)] [], []) :=
  claim_C10_delete_missing_noop _ "zzz" (by decide)

/-! ## Claim C2 — minimum-duration invariant during handle drags -/

/-- Claim C2 (as stated) is false; counterexample: a live session for an
overnight segment 23:30→00:30 (`startMin = 1410`, offsets 0/1, span 60).
Dragging the start handle one column to the right (`gBottom.onChange` with
candidate minute 1410, candidate day offset 1) makes the minimum-duration
adjustment compute a required start minute of `-30`, which `wClamp` raises
to 0 — leaving a total span of 30 minutes, below `MIN_DURATION = 60`. -/
theorem claim_C2_counterexample :
    gBottomChange (GestureState.mk 1410 30 0 1 true) 1410 1
        = GestureState.mk 0 30 1 1 true ∧
    totalSpanMin (GestureState.mk 0 30 1 1 true) = 30 ∧
    ¬ MIN_DURATION ≤ (30 : Int) := by
  refine ⟨by decide, by decide, by decide⟩

/-- Claim C2, amended: after every incremental end-handle (`gTop.onChange`)
drag update the total span is at least `MIN_DURATION`; an incremental
start-handle (`gBottom.onChange`) update guarantees this only when the end
handle's minute-of-day is at least `MIN_DURATION` (otherwise the required
start minute is clamped at 0 and the span can fall short, as the
counterexample shows).  The end-of-gesture snap is not re-checked against
the minimum. -/
theorem claim_C2_amended :
    (∀ (st : GestureState) (endMinCand dayOffsetCand : Int),
      st.isEditing = true →
      MIN_DURATION ≤ totalSpanMin (gTopChange st endMinCand dayOffsetCand)) ∧
    (∀ (st : GestureState) (startMinCand dayOffsetCand : Int),
      st.isEditing = true → MIN_DURATION ≤ st.endMin →
      MIN_DURATION ≤ totalSpanMin (gBottomChange st startMinCand dayOffsetCand)) := by
  constructor
  · intro st endMinCand dayOffsetCand hedit
    unfold gTopChange totalSpanMin clampEndToStart normalizeLoop normalizeUpLoop
    unfold MIN_DURATION MINUTES_PER_DAY
    simp only [hedit, Bool.true_eq_false, if_false]
    split_ifs <;> simp only <;> omega
  · intro st startMinCand dayOffsetCand hedit hend
    unfold MIN_DURATION at hend
    unfold gBottomChange totalSpanMin clampStartToEnd normalizeLoop wClamp
    unfold MIN_DURATION MINUTES_PER_DAY
    simp only [hedit, Bool.true_eq_false, if_false]
    split_ifs <;> simp only <;> omega

/-- Witness for the amended C2: an end-handle drag pulling the end below
the start, and a start-handle drag pushing the start above the end, both
end at exactly the minimum span. -/
theorem claim_C2_amended_witness :
    MIN_DURATION ≤ totalSpanMin (gTopChange (GestureState.mk 600 700 0 0 true) 500 0) ∧
    MIN_DURATION ≤ totalSpanMin (gBottomChange (GestureState.mk 600 700 0 0 true) 680 0) :=
  ⟨claim_C2_amended.1 (GestureState.mk 600 700 0 0 true) 500 0 rfl,
   claim_C2_amended.2 (GestureState.mk 600 700 0 0 true) 680 0 rfl (by decide)⟩

/-! ## Claim C9 — day-offset ordering invariant -/

/-- Claim C9: every end-handle and start-handle gesture update keeps
`startDayOffset ≤ endDayOffset`: the incremental updates enforce it
unconditionally while editing, the end-of-gesture snaps preserve it (the
end-handle snap needs the live end minute to be nonnegative, which the
incremental updates maintain), and the clamping steps behave exactly as
claimed — an end handle headed for a day before the start handle is
clamped to `(startDayOffset, minute 0)`, a start handle headed for a day
after the end handle is clamped to `(endDayOffset, minute 1439)`. -/
theorem claim_C9_day_offset_order :
    (∀ (st : GestureState) (endMinCand dayOffsetCand : Int),
      st.isEditing = true →
      (gTopChange st endMinCand dayOffsetCand).startDayOffset
        ≤ (gTopChange st endMinCand dayOffsetCand).endDayOffset) ∧
    (∀ (st : GestureState) (startMinCand dayOffsetCand : Int),
      st.isEditing = true →
      (gBottomChange st startMinCand dayOffsetCand).startDayOffset
        ≤ (gBottomChange st startMinCand dayOffsetCand).endDayOffset) ∧
    (∀ (st : GestureState) (isHandleHere : Bool) (safeSnap : Int),
      st.startDayOffset ≤ st.endDayOffset → 0 ≤ st.endMin →
      (gTopEnd st isHandleHere safeSnap).startDayOffset
        ≤ (gTopEnd st isHandleHere safeSnap).endDayOffset) ∧
    (∀ (st : GestureState) (isHandleHere : Bool) (safeSnap : Int),
      st.startDayOffset ≤ st.endDayOffset →
      (gBottomEnd st isHandleHere safeSnap).startDayOffset
        ≤ (gBottomEnd st isHandleHere safeSnap).endDayOffset) ∧
    (∀ startDayOffset dayOffset endMin : Int, dayOffset < startDayOffset →
      clampEndToStart startDayOffset dayOffset endMin = (startDayOffset, 0)) ∧
    (∀ endDayOffset dayOffset startMin : Int, endDayOffset < dayOffset →
      clampStartToEnd endDayOffset dayOffset startMin
        = (endDayOffset, MINUTES_PER_DAY - 1)) := by
  refine ⟨?_, ?_, ?_, ?_, ?_, ?_⟩
  · intro st endMinCand dayOffsetCand hedit
    unfold gTopChange clampEndToStart normalizeLoop normalizeUpLoop
    unfold MIN_DURATION MINUTES_PER_DAY
    simp only [hedit, Bool.true_eq_false, if_false]
    split_ifs <;> simp only <;> omega
  · intro st startMinCand dayOffsetCand hedit
    unfold gBottomChange clampStartToEnd normalizeLoop wClamp
    unfold MIN_DURATION MINUTES_PER_DAY
    simp only [hedit, Bool.true_eq_false, if_false]
    split_ifs <;> simp only <;> omega
  · intro st isHandleHere safeSnap hord hend
    unfold gTopEnd
    split
    · exact hord
    · have hsnap : 0 ≤ wSnapTo st.endMin safeSnap := wSnapTo_nonneg _ _ hend
      unfold normalizeLoop MINUTES_PER_DAY
      simp only
      omega
  · intro st isHandleHere safeSnap hord
    unfold gBottomEnd
    split
    · exact hord
    · exact hord
  · intro startDayOffset dayOffset endMin h
    unfold clampEndToStart
    rw [if_pos h]
  · intro endDayOffset dayOffset startMin h
    unfold clampStartToEnd
    rw [if_pos h]

/-- Witness for C9: concrete drags that do attempt to cross the other
handle's day. -/
theorem claim_C9_day_offset_order_witness :
    (gTopChange (GestureState.mk 600 700 0 0 true) 700 (-2)).startDayOffset
      ≤ (gTopChange (GestureState.mk 600 700 0 0 true) 700 (-2)).endDayOffset ∧
    (gBottomChange (GestureState.mk 600 700 0 0 true) 600 3).startDayOffset
      ≤ (gBottomChange (GestureState.mk 600 700 0 0 true) 600 3).endDayOffset ∧
    (gTopEnd (GestureState.mk 600 702 0 0 true) true 5).startDayOffset
      ≤ (gTopEnd (GestureState.mk 600 702 0 0 true) true 5).endDayOffset ∧
    (gBottomEnd (GestureState.mk 602 700 0 0 true) true 5).startDayOffset
      ≤ (gBottomEnd (GestureState.mk 602 700 0 0 true) true 5).endDayOffset ∧
    clampEndToStart 1 0 300 = (1, 0) ∧
    clampStartToEnd 1 2 300 = (1, MINUTES_PER_DAY - 1) :=
  ⟨claim_C9_day_offset_order.1 (GestureState.mk 600 700 0 0 true) 700 (-2) rfl,
   claim_C9_day_offset_order.2.1 (GestureState.mk 600 700 0 0 true) 600 3 rfl,
   claim_C9_day_offset_order.2.2.1 (GestureState.mk 600 702 0 0 true) true 5
     (by decide) (by decide),
   claim_C9_day_offset_order.2.2.2.1 (GestureState.mk 602 700 0 0 true) true 5
     (by decide),
   claim_C9_day_offset_order.2.2.2.2.1 1 0 300 (by decide),
   claim_C9_day_offset_order.2.2.2.2.2 1 2 300 (by decide)⟩

/-! ## Claim C1 — day-aggregate recomputation -/

/-- Claim C1 (as stated) is false: `recomputeDayIndexForLocalDate` adds the
*full* `durationMin(start, end)` of every closed segment whose span
overlaps the day's window, not the clipped portion inside the window.
For the closed interval 23:30→01:30 local (day 0 minute 1410 to day 1
minute 90, instants 1410 and 1530) the first day's total becomes 120
minutes, not the 30 minutes the claim asserts. -/
theorem claim_C1_counterexample :
    dayIndexTotal
        (recomputeDayIndexForLocalDate
          (Store.mk [Segment.mk "s" 1410 (some 1530)] []) 0) 0
      = some 120 ∧
    (120 : Int) ≠ 30 := by
  refine ⟨by decide, by decide⟩

/-- Claim C1, amended: recomputing day `D` sets `D`'s total sleep minutes
to the sum, over closed segments whose span overlaps `D`'s local
`[midnight, next-midnight)` window, of each segment's *entire* duration
(`durationMin(start, end)`), with no clipping to the window; in
particular a closed interval 23:30→01:30 local contributes its full 120
minutes to *both* days it touches (240 interval-minutes in total across
the two aggregates for a 120-minute interval).  The general conjunct
shows the full duration is credited to any day the segment merely
touches. -/
theorem claim_C1_amended :
    (∀ (seg : Segment) (e localDate : Int) (idx : List (Int × Int)),
      seg.end_utc = some e →
      seg.start_utc < (localDate + 1) * MINUTES_PER_DAY →
      localDate * MINUTES_PER_DAY < e →
      dayIndexTotal
          (recomputeDayIndexForLocalDate (Store.mk [seg] idx) localDate) localDate
        = some (durationMin seg.start_utc e)) ∧
    dayIndexTotal
        (recomputeDayIndexForLocalDate
          (Store.mk [Segment.mk "s" 1410 (some 1530)] []) 0) 0
      = some 120 ∧
    dayIndexTotal
        (recomputeDayIndexForLocalDate
          (Store.mk [Segment.mk "s" 1410 (some 1530)] []) 1) 1
      = some 120 := by
  refine ⟨?_, by decide, by decide⟩
  intro seg e localDate idx hend h1 h2
  rw [dayIndexTotal_recompute]
  rw [dayTotalSleepMin_singleton seg e localDate hend h1 h2]

/-- Witness for the amended C1: the 23:30→01:30 segment touching day 0. -/
theorem claim_C1_amended_witness :
    dayIndexTotal
        (recomputeDayIndexForLocalDate
          (Store.mk [Segment.mk "s" 1410 (some 1530)] [(0, 7)]) 0) 0
      = some (durationMin 1410 1530) :=
  claim_C1_amended.1 (Segment.mk "s" 1410 (some 1530)) 1530 0 [(0, 7)]
    rfl (by decide) (by decide)

/-! ## Claim C4 — smart overnight creation -/

/-- Claim C4 (as stated) is false in its general clause: the overnight end
minute is not the raw `(s + d) - 1440` but that value *snapped to the
snap granularity* (`Math.max(0, wSnapTo(...))`).  With snapped start
minute `s = 1380` (23:00), preference duration `d = 483` and granularity
5, the code produces end minute 425, not `(1380 + 483) - 1440 = 423`
(which already lies in `[0,1440)`, so wrapping alone would leave it
unchanged). -/
theorem claim_C4_counterexample :
    longPressEmpty false 1380 483 5
        = some (CreateCall.withOffset 1380 425 0 1) ∧
    (1380 + 483) - MINUTES_PER_DAY = (423 : Int) ∧
    (425 : Int) ≠ 423 := by
  refine ⟨by decide, by decide, by decide⟩

/-- Claim C4, amended: with `s` the clamped-and-snapped start minute and
`d` the clamped desired duration, a long-press creation takes the
overnight path exactly when `s + d ≥ 1440`, and then creates the session
through `startNewEditWithOffset` with `startDayOffset = 0`,
`endDayOffset = 1` and end minute `max 0 (wSnapTo ((s + d) - 1440))` —
the wrapped value snapped to the granularity.  The examples behave as
claimed: `s = 1380`, `d = 480` gives end minute 420 (07:00 next day), and
the boundary `s = 1380`, `d = 60` gives end minute 0. -/
theorem claim_C4_amended :
    (∀ rawStartMin defaultDurationMin safeSnap : Int,
      let s := max 0 (wSnapTo (min rawStartMin (MINUTES_PER_DAY - MIN_DURATION)) safeSnap)
      let d := max MIN_CREATE_MINUTES (min defaultDurationMin MINUTES_PER_DAY)
      (longPressEmpty false rawStartMin defaultDurationMin safeSnap
          = some (CreateCall.withOffset s
              (max 0 (wSnapTo (s + d - MINUTES_PER_DAY) safeSnap)) 0 1)
        ↔ MINUTES_PER_DAY ≤ s + d)) ∧
    longPressEmpty false 1380 480 5 = some (CreateCall.withOffset 1380 420 0 1) ∧
    longPressEmpty false 1380 60 5 = some (CreateCall.withOffset 1380 0 0 1) := by
  refine ⟨?_, by decide, by decide⟩
  intro rawStartMin defaultDurationMin safeSnap
  unfold longPressEmpty
  simp only [Bool.false_eq_true, if_false]
  set s := max 0 (wSnapTo (min rawStartMin (MINUTES_PER_DAY - MIN_DURATION)) safeSnap) with hs
  set d := max MIN_CREATE_MINUTES (min defaultDurationMin MINUTES_PER_DAY) with hd
  by_cases hcross : MINUTES_PER_DAY ≤ s + d
  · simp [hcross]
  · simp [hcross]

/-! ## Claim C5 — commit re-entrancy guard -/

/-- Claim C5 (as stated) is false: `commitEdit` sets `isCommitting` but
never checks it before committing.  A session whose `isCommitting` flag
is already set (a commit outstanding) still issues the `upsertSegment`
persistence call when invoked again with valid coordinates. -/
theorem claim_C5_counterexample :
    (EditingSession.mk "s1" true 0 true 0 60 true).isCommitting = true ∧
    (commitEdit (EditingSession.mk "s1" true 0 true 0 60 true)
        (Coords.mk 0 60 0 0) [] false).persistAttempted = true := by
  refine ⟨by decide, by decide⟩

/-- Claim C5, amended: `commitEdit` sets an `isCommitting` flag when it
starts (used to hide the original segment) but never consults it: whether
the persistence call is issued is entirely independent of the flag, and
equals exactly "the validations pass" (`end > start` and no overlap).  In
particular a second invocation while one commit is outstanding issues
another persistence call whenever validation passes. -/
theorem claim_C5_amended (sess : EditingSession) (c : Coords)
    (segs : List Segment) (persistFails : Bool) :
    ((commitEdit { sess with isCommitting := true } c segs persistFails).persistAttempted
        = (commitEdit { sess with isCommitting := false } c segs persistFails).persistAttempted) ∧
    ((commitEdit sess c segs persistFails).persistAttempted = true ↔
      (localDateFromDayAndMinutes (getDateKeyFromOffset sess.dayKey c.startDayOffset) c.startMin
          < localDateFromDayAndMinutes (getDateKeyFromOffset sess.dayKey c.endDayOffset) c.endMin ∧
        checkOverlap sess.dayKey segs
          (localDateFromDayAndMinutes (getDateKeyFromOffset sess.dayKey c.startDayOffset) c.startMin)
          (localDateFromDayAndMinutes (getDateKeyFromOffset sess.dayKey c.endDayOffset) c.endMin)
          (if sess.hasSaved then some sess.id else none) = false)) := by
  constructor
  · unfold commitEdit
    dsimp only
  · unfold commitEdit
    dsimp only
    by_cases h1 : localDateFromDayAndMinutes (getDateKeyFromOffset sess.dayKey c.endDayOffset) c.endMin
        ≤ localDateFromDayAndMinutes (getDateKeyFromOffset sess.dayKey c.startDayOffset) c.startMin
    · rw [if_pos h1]
      exact iff_of_false (by simp) (fun hc => absurd hc.1 (not_lt.mpr h1))
    · rw [if_neg h1]
      by_cases h2 : checkOverlap sess.dayKey segs
          (localDateFromDayAndMinutes (getDateKeyFromOffset sess.dayKey c.startDayOffset) c.startMin)
          (localDateFromDayAndMinutes (getDateKeyFromOffset sess.dayKey c.endDayOffset) c.endMin)
          (if sess.hasSaved then some sess.id else none) = true
      · rw [if_pos h2]
        refine iff_of_false (by simp) (fun hc => ?_)
        rw [hc.2] at h2
        simp at h2
      · rw [if_neg h2]
        refine iff_of_true ?_ ⟨not_le.mp h1, by simpa using h2⟩
        split_ifs <;> rfl

/-! ## Claim C6 — validation failures leave the session unchanged -/

/-- Claim C6: if at commit time the recomputed end instant is not strictly
after the start instant, or the candidate overlaps another committed
segment (excluding the session's own when it has been saved), `commitEdit`
returns failure without issuing any persistence call, and the session's
id, `hasSaved`, `isDirty`, day key and all four coordinate values are
unchanged.  (The embedded function is total: the source surfaces the
error as a toast inside the hook and nothing escapes the session
boundary.) -/
theorem claim_C6_validation_failure_unchanged (sess : EditingSession) (c : Coords)
    (segs : List Segment) (persistFails : Bool)
    (h : localDateFromDayAndMinutes (getDateKeyFromOffset sess.dayKey c.endDayOffset) c.endMin
          ≤ localDateFromDayAndMinutes (getDateKeyFromOffset sess.dayKey c.startDayOffset) c.startMin
        ∨ checkOverlap sess.dayKey segs
            (localDateFromDayAndMinutes (getDateKeyFromOffset sess.dayKey c.startDayOffset) c.startMin)
            (localDateFromDayAndMinutes (getDateKeyFromOffset sess.dayKey c.endDayOffset) c.endMin)
            (if sess.hasSaved then some sess.id else none) = true) :
    (commitEdit sess c segs persistFails).ok = false ∧
    (commitEdit sess c segs persistFails).persistAttempted = false ∧
    (commitEdit sess c segs persistFails).upsertArgs = none ∧
    (commitEdit sess c segs persistFails).session.id = sess.id ∧
    (commitEdit sess c segs persistFails).session.hasSaved = sess.hasSaved ∧
    (commitEdit sess c segs persistFails).session.isDirty = sess.isDirty ∧
    (commitEdit sess c segs persistFails).session.dayKey = sess.dayKey ∧
    (commitEdit sess c segs persistFails).coords = c := by
  unfold commitEdit
  dsimp only
  rcases h with h | h
  · rw [if_pos h]
    exact ⟨rfl, rfl, rfl, rfl, rfl, rfl, rfl, rfl⟩
  · by_cases h1 : localDateFromDayAndMinutes (getDateKeyFromOffset sess.dayKey c.endDayOffset) c.endMin
        ≤ localDateFromDayAndMinutes (getDateKeyFromOffset sess.dayKey c.startDayOffset) c.startMin
    · rw [if_pos h1]
      exact ⟨rfl, rfl, rfl, rfl, rfl, rfl, rfl, rfl⟩
    · rw [if_neg h1, if_pos h]
      exact ⟨rfl, rfl, rfl, rfl, rfl, rfl, rfl, rfl⟩

/-- Witness for C6: a zero-length candidate (`end = start`) is rejected
with the session untouched; the same holds for an overlap with a stored
segment. -/
theorem claim_C6_validation_failure_unchanged_witness :
    (commitEdit (EditingSession.mk "s1" true 0 false 100 200 false)
        (Coords.mk 100 100 0 0) [Segment.mk "other" 0 (some 50)] false).ok = false ∧
    (commitEdit (EditingSession.mk "s1" true 0 false 100 200 false)
        (Coords.mk 100 100 0 0) [Segment.mk "other" 0 (some 50)] false).persistAttempted
      = false := by
  have h := claim_C6_validation_failure_unchanged
    (EditingSession.mk "s1" true 0 false 100 200 false)
    (Coords.mk 100 100 0 0) [Segment.mk "other" 0 (some 50)] false
    (Or.inl (by decide))
  exact ⟨h.1, h.2.1⟩

/-! ## Claim C7 — revert on persistence failure -/

/-- Claim C7 (as stated) is false: on a thrown store error `commitEdit`
reverts only the two *minute-of-day* shared values; the day-offset shared
values are left at their edited values (no committed day offsets are even
recorded).  Trace: a new session is committed successfully with
coordinates (start 23:00 day-offset 0, end 07:00 day-offset 1); the body
is then dragged one day to the left (offsets −1/0) and the second commit's
store call fails.  Afterwards the coordinates hold minute values 1380/420
but day offsets −1/0, not the committed 0/1. -/
theorem claim_C7_counterexample :
    (commitEdit (EditingSession.mk "n1" false 0 true 1380 420 false)
        (Coords.mk 1380 420 0 1) [] false).ok = true ∧
    (commitEdit
        (commitEdit (EditingSession.mk "n1" false 0 true 1380 420 false)
          (Coords.mk 1380 420 0 1) [] false).session
        (Coords.mk 1380 420 (-1) 0) [] true).ok = false ∧
    (commitEdit
        (commitEdit (EditingSession.mk "n1" false 0 true 1380 420 false)
          (Coords.mk 1380 420 0 1) [] false).session
        (Coords.mk 1380 420 (-1) 0) [] true).coords
      = Coords.mk 1380 420 (-1) 0 ∧
    ¬ ((-1 : Int) = 0 ∧ (0 : Int) = 1) := by
  refine ⟨by decide, by decide, by decide, by decide⟩

/-- Claim C7, amended: when validation passes and the persistence call
fails, `commitEdit` returns failure and reverts the two minute-of-day
coordinates to `lastCommittedStart`/`lastCommittedEnd` (also clearing
`isDirty`), while both day-offset coordinates keep their edited values. -/
theorem claim_C7_amended (sess : EditingSession) (c : Coords) (segs : List Segment)
    (h1 : localDateFromDayAndMinutes (getDateKeyFromOffset sess.dayKey c.startDayOffset) c.startMin
          < localDateFromDayAndMinutes (getDateKeyFromOffset sess.dayKey c.endDayOffset) c.endMin)
    (h2 : checkOverlap sess.dayKey segs
            (localDateFromDayAndMinutes (getDateKeyFromOffset sess.dayKey c.startDayOffset) c.startMin)
            (localDateFromDayAndMinutes (getDateKeyFromOffset sess.dayKey c.endDayOffset) c.endMin)
            (if sess.hasSaved then some sess.id else none) = false) :
    (commitEdit sess c segs true).ok = false ∧
    (commitEdit sess c segs true).persistAttempted = true ∧
    (commitEdit sess c segs true).coords.startMin = sess.lastCommittedStart ∧
    (commitEdit sess c segs true).coords.endMin = sess.lastCommittedEnd ∧
    (commitEdit sess c segs true).coords.startDayOffset = c.startDayOffset ∧
    (commitEdit sess c segs true).coords.endDayOffset = c.endDayOffset ∧
    (commitEdit sess c segs true).session.isDirty = false := by
  unfold commitEdit
  dsimp only
  rw [if_neg (not_le.mpr h1), if_neg (by simp [h2]), if_pos rfl]
  exact ⟨rfl, rfl, rfl, rfl, rfl, rfl, rfl⟩

/-- Witness for the amended C7 at a concrete failing commit. -/
theorem claim_C7_amended_witness :
    (commitEdit (EditingSession.mk "s1" true 0 true 100 200 false)
        (Coords.mk 90 260 0 0) [] true).coords.startMin = 100 ∧
    (commitEdit (EditingSession.mk "s1" true 0 true 100 200 false)
        (Coords.mk 90 260 0 0) [] true).coords.startDayOffset = 0 := by
  have h := claim_C7_amended (EditingSession.mk "s1" true 0 true 100 200 false)
    (Coords.mk 90 260 0 0) [] (by decide) (by decide)
  exact ⟨h.2.2.1, h.2.2.2.2.1⟩

end SleepLogger
